import Mathlib

/-!
Verification development for the Twilio Media Streams bridge
(`backend/open_webui/utils/twilio_media_streams.py` and its caller
`backend/open_webui/routers/orders.py`).

The Python code is shallowly embedded: byte strings are `List Nat` (each
element a byte value 0–255), Python ints are `Int`/`Nat` with explicit
`% 2^w` where the code masks or packs, fallible code (numpy raising
`ValueError`) returns `Option`, and the asynchronous handlers are modelled
as pure state-transition functions producing a list of observable outputs
(websocket sends and log records).
-/

set_option maxRecDepth 100000

namespace TwilioMedia

/-! ## Audio codec: µ-law decode (`_mulaw_to_pcm16`)

The Python loop body, for each `byte` of the input (0 ≤ byte ≤ 255):
```
byte = ~byte
sign = byte & 0x80
exponent = (byte >> 4) & 0x07
mantissa = byte & 0x0F
sample = mantissa << (exponent + 3)
if sign: sample = -sample
sample = int(sample * 256)
pcm_samples.append(sample & 0xFF)
pcm_samples.append((sample >> 8) & 0xFF)
```
Python's `~byte` is `-byte-1` on an unbounded int; under the masks
`& 0x80`, `(· >> 4) & 0x07`, `& 0x0F` it behaves exactly like the byte
complement `255 - byte`, which is how the embedding writes it. -/

/-- The signed sample the Python loop computes for one µ-law byte
before the `* 256` scaling step. -/
def mulawDecodeSample (x : Nat) : Int :=
  let c := 255 - x % 256
  let sign := c &&& 0x80
  let exponent := (c >>> 4) &&& 0x07
  let mantissa := c &&& 0x0F
  let sample : Int := (mantissa <<< (exponent + 3) : Nat)
  if sign ≠ 0 then -sample else sample

/-- The two little-endian bytes appended for one µ-law input byte:
`sample * 256` packed via `& 0xFF` and `(>> 8) & 0xFF`.  On Python's
unbounded ints those two masks read off `(sample * 256) mod 2^16`
(arithmetic right shift composed with `& 0xFF` is floor-division by 256
followed by `mod 256`), which is how the embedding writes it. -/
def mulawDecodeBytes (x : Nat) : List Nat :=
  let v := ((mulawDecodeSample x * 256) % 65536).toNat
  [v % 256, v / 256]

/-- Embedding of `_mulaw_to_pcm16`: two PCM16 bytes per µ-law byte. -/
def _mulaw_to_pcm16 (mulaw_bytes : List Nat) : List Nat :=
  mulaw_bytes.flatMap mulawDecodeBytes

/-! ## Audio codec: µ-law encode (`_pcm16_to_mulaw`)

The Python loop walks the byte string two bytes at a time (an odd
trailing byte is dropped by the `i + 1 < len` guard), unpacks a signed
little-endian 16-bit sample, and encodes:
```
sign = 0x80 if sample < 0 else 0x00
sample = abs(sample)
if sample > 32635: sample = 32635
sample += 0x84
exponent = 7; exp_mask = 0x4000
while exponent > 0 and (sample & exp_mask) == 0:
    exponent -= 1; exp_mask >>= 1
mantissa = (sample >> (exponent + 3)) & 0x0F
mulaw_byte = ~(sign | (exponent << 4) | mantissa)
mulaw_samples.append(mulaw_byte & 0xFF)
```
-/

/-- Signed value of a little-endian PCM16 byte pair (`struct.unpack('<h', ...)`). -/
def pcm16ToSigned (lo hi : Nat) : Int :=
  let u := lo % 256 + 256 * (hi % 256)
  if u < 32768 then (u : Int) else (u : Int) - 65536

/-- The `while` loop searching the exponent: starts at exponent 7 with
mask `0x4000` and decrements (halving the mask) while the masked bit of
`m` is clear and the exponent is positive. -/
def muExpLoop : Nat → Nat → Nat → Nat
  | 0, _, _ => 0
  | e + 1, mask, m => if m &&& mask == 0 then muExpLoop e (mask / 2) m else e + 1

/-- Encoding of one signed sample to µ-law.  The final `~v & 0xFF` equals
`255 - v` because `sign | (exponent << 4) | mantissa` is at most 255. -/
def mulawEncodeSample (s : Int) : Nat :=
  let sign := if s < 0 then 0x80 else 0x00
  let a := s.natAbs
  let a := if a > 32635 then 32635 else a
  let m := a + 0x84
  let exponent := muExpLoop 7 0x4000 m
  let mantissa := (m >>> (exponent + 3)) &&& 0x0F
  255 - (sign ||| (exponent <<< 4) ||| mantissa)

/-- Embedding of `_pcm16_to_mulaw`: one µ-law byte per PCM16 byte pair. -/
def _pcm16_to_mulaw : List Nat → List Nat
  | lo :: hi :: rest => mulawEncodeSample (pcm16ToSigned lo hi) :: _pcm16_to_mulaw rest
  | _ => []

/-- The signed 16-bit value `_mulaw_to_pcm16` produces for a single
µ-law byte, read back from its two output bytes. -/
def mulawDecodedValue (x : Nat) : Int :=
  match _mulaw_to_pcm16 [x] with
  | [lo, hi] => pcm16ToSigned lo hi
  | _ => 0

/-- Modelled from the spec: the standard (G.711) µ-law expansion the spec
describes — "sign bit, 3-bit exponent, 4-bit mantissa, biased/inverted per
standard µ-law expansion" — used only as the reference point the claims
compare `_mulaw_to_pcm16` against.  Complement the byte, split the fields,
restore the 0x84 bias: `magnitude = ((mantissa << 3) + 0x84) << exponent - 0x84`. -/
def specMulawExpand (x : Nat) : Int :=
  let c := 255 - x % 256
  let exponent := (c >>> 4) &&& 0x07
  let mantissa := c &&& 0x0F
  let magnitude : Int := ((mantissa <<< 3) + 0x84) <<< exponent - 0x84
  if c &&& 0x80 ≠ 0 then -magnitude else magnitude

/-! ## Audio resampling (`_resample_audio`)

The Python function:
```
if from_rate == to_rate:
    return audio_bytes
samples = np.frombuffer(audio_bytes, dtype=np.int16)
num_samples = int(len(samples) * to_rate / from_rate)
resampled = np.interp(
    np.linspace(0, len(samples), num_samples),
    np.arange(len(samples)),
    samples
).astype(np.int16)
return resampled.tobytes()
```
The embedding models the numpy path (the repository's normal environment;
the `ImportError` fallback is dead when numpy is installed).  Two numpy
calls raise `ValueError`, modelled as `none`: `np.frombuffer` on a byte
string of odd length, and `np.interp` when `xp = np.arange(len(samples))`
is empty, i.e. on an empty input.  `np.linspace(0, N, M)` is the points
`k·N/(M-1)` for `k < M` (just `[0]` when `M = 1`); `np.interp` clamps at
`fp[N-1]` for points at or beyond `N-1` and interpolates linearly below;
`astype(np.int16)` truncates toward zero.  The float arithmetic is
modelled as exact rational arithmetic; `int(len(samples)*to_rate/from_rate)`
is modelled as floor division, which at the rate ratios the claims use
(×2 and ÷3) agrees with the correctly rounded IEEE double computation for
every realistic frame length. -/

/-- Signed int16 samples of a little-endian PCM16 byte string
(`np.frombuffer(audio_bytes, dtype=np.int16)`). -/
def bytesToSamples : List Nat → List Int
  | lo :: hi :: rest => pcm16ToSigned lo hi :: bytesToSamples rest
  | _ => []

/-- Truncation toward zero of `a / d` for `d > 0`: the effect of
`astype(np.int16)` on the (here exact-rational) interpolated value. -/
def intTrunc (a : Int) (d : Nat) : Int :=
  if a < 0 then -((-a) / (d : Int)) else a / (d : Int)

/-- Two little-endian bytes of one signed int16 sample
(`.astype(np.int16).tobytes()` stores the value mod 2^16). -/
def sampleToBytes (s : Int) : List Nat :=
  let v := (s % 65536).toNat
  [v % 256, v / 256]

/-- Value of `np.interp` at the `k`-th linspace point `k·N/(M-1)` over
`xp = 0, …, N-1`, `fp = samples` (with `N = samples.length`), truncated
toward zero.  For `M ≤ 1` the single linspace point is 0. -/
def interpSample (samples : List Int) (M k : Nat) : Int :=
  let N := samples.length
  if M ≤ 1 then samples.headD 0
  else
    let d := M - 1
    let num := k * N
    if (N - 1) * d ≤ num then samples.getD (N - 1) 0
    else
      let i := num / d
      let rem := num % d
      let fpi := samples.getD i 0
      let fpi1 := samples.getD (i + 1) 0
      intTrunc (fpi * (d : Int) + (rem : Int) * (fpi1 - fpi)) d

/-- Embedding of `_resample_audio`.  `none` models the numpy `ValueError`s
(odd byte length at `np.frombuffer`; empty sample array at `np.interp`),
which the function does not catch (its `except` clause only catches
`ImportError`). -/
def _resample_audio (audio_bytes : List Nat) (from_rate to_rate : Nat) :
    Option (List Nat) :=
  if from_rate = to_rate then some audio_bytes
  else if audio_bytes.length % 2 ≠ 0 then none
  else
    let samples := bytesToSamples audio_bytes
    let num_samples := samples.length * to_rate / from_rate
    if samples.length = 0 then none
    else some (((List.range num_samples).map (interpSample samples num_samples)).flatMap
      sampleToBytes)

/-! ## Bridge state (`TwilioMediaStreamBridge`) and observable outputs

The mutable fields of a `TwilioMediaStreamBridge` instance that the
handlers read or write: `call_sid`, `ai_provider`, `is_connected`,
whether `twilio_ws` is set, and the AI websocket (`none` before
`_connect_ai`, `some true` while open, `some false` once closed).  The
asynchronous handlers are embedded as pure functions from a bridge state
and an (already-parsed) inbound message to the successor state plus the
list of observable outputs: websocket sends and exception log records. -/

structure BridgeState where
  call_sid : String
  ai_provider : String
  is_connected : Bool
  twilio_ws : Bool
  ai_ws : Option Bool
  deriving DecidableEq, Repr

/-- Observable effects of one handler invocation: a `_send_audio_to_ai`
send, a `_send_audio_to_twilio` media frame, or a `log.exception` /
`log.info` record from an `except` clause. -/
inductive Output where
  | toAI (audio : List Nat)
  | toTwilio (mulaw : List Nat)
  | logged (tag : String)
  deriving DecidableEq, Repr

/-- An inbound Twilio Media Stream frame after `json.loads` and (for
media events) `base64.b64decode`.  `malformed` stands for every input
string on which `json.loads` or the base64 decode raises — the handler's
outer `try/except Exception` catches both.  `media none` is a media
event whose `payload` key is missing or falsy (skipped by `if payload:`). -/
inductive TwilioFrame where
  | malformed
  | media (payload : Option (List Nat))
  | start
  | stop
  | other
  deriving DecidableEq, Repr

/-- Events of the OpenAI realtime session as `_process_openai_message`
reads them: `response.audio.delta` with its decoded base64 audio,
`response.text.delta` with its text, anything else ignored. -/
inductive AIEvent where
  | audioDelta (audio : List Nat)
  | textDelta (text : String)
  | other
  deriving DecidableEq, Repr

/-- Embedding of `_send_audio_to_ai`: both provider branches send the
audio buffer (base64-wrapped in provider-specific JSON) in exactly one
websocket message. -/
def _send_audio_to_ai (audio_bytes : List Nat) : List Output :=
  [Output.toAI audio_bytes]

/-- Embedding of `_send_audio_to_twilio`: sends one media frame when
`self.twilio_ws and self.is_connected`, otherwise nothing. -/
def _send_audio_to_twilio (b : BridgeState) (mulaw_audio : List Nat) : List Output :=
  if b.twilio_ws && b.is_connected then [Output.toTwilio mulaw_audio] else []

/-- Embedding of `_handle_twilio_message`.  The whole body is wrapped in
`try/except Exception: log.exception(...)`, so a parse failure, or a
`ValueError` escaping `_resample_audio`, leaves the state unchanged and
produces only a log record.  A `media` frame is decoded from µ-law,
resampled from 8000 Hz to 16000 Hz for the `'openai'` provider (24000 Hz
otherwise), and sent to the AI; `start`/`stop` are only logged (modelled
as no output); the handler never writes any bridge field. -/
def _handle_twilio_message (b : BridgeState) (f : TwilioFrame) :
    BridgeState × List Output :=
  match f with
  | .malformed => (b, [Output.logged "Error handling Twilio message"])
  | .media none => (b, [])
  | .media (some payload) =>
      let pcm_audio := _mulaw_to_pcm16 payload
      let target_rate := if b.ai_provider = "openai" then 16000 else 24000
      match _resample_audio pcm_audio 8000 target_rate with
      | some resampled => (b, _send_audio_to_ai resampled)
      | none => (b, [Output.logged "Error handling Twilio message"])
  | .start => (b, [])
  | .stop => (b, [])
  | .other => (b, [])

/-- Embedding of `_process_openai_message`: a `response.audio.delta`
event is resampled 24000 Hz → 8000 Hz, µ-law encoded and sent to Twilio
(under `_process_ai_message`'s `try/except`, so a `ValueError` from
`_resample_audio` only logs); `response.text.delta` is logged at debug
level; other events are ignored. -/
def _process_openai_message (b : BridgeState) (e : AIEvent) : List Output :=
  match e with
  | .audioDelta audio =>
      if audio.isEmpty then []
      else
        match _resample_audio audio 24000 8000 with
        | some resampled => _send_audio_to_twilio b (_pcm16_to_mulaw resampled)
        | none => [Output.logged "Error processing AI message"]
  | .textDelta _ => []
  | .other => []

/-- Embedding of `_cleanup`: sets `is_connected = False` and closes the
AI websocket when one is present (`websockets`' `close()` on an
already-closed connection is a no-op, so closing maps `some _` to
`some false`).  `_cleanup` does not clear `ai_ws` and does not touch the
registry. -/
def _cleanup (b : BridgeState) : BridgeState :=
  { b with is_connected := false, ai_ws := b.ai_ws.map (fun _ => false) }

/-! ## Call registry (`_active_bridges`)

A Python `dict` keyed by call SID, embedded as an association list with
`dict` semantics: assignment replaces the value of an existing key in
place and otherwise appends, `get` returns the value of the first (and
with unique keys, only) matching entry, `del` removes the key. -/

abbrev Registry := List (String × BridgeState)

/-- Embedding of `get_bridge` (`_active_bridges.get(call_sid)`). -/
def get_bridge (r : Registry) (call_sid : String) : Option BridgeState :=
  (r.find? (fun p => p.1 == call_sid)).map Prod.snd

/-- Embedding of `register_bridge` (`_active_bridges[call_sid] = bridge`). -/
def register_bridge (r : Registry) (call_sid : String) (bridge : BridgeState) :
    Registry :=
  if r.any (fun p => p.1 == call_sid) then
    r.map (fun p => if p.1 == call_sid then (call_sid, bridge) else p)
  else r ++ [(call_sid, bridge)]

/-- Embedding of `unregister_bridge` (`if call_sid in _active_bridges:
del _active_bridges[call_sid]`): removing the key when present and doing
nothing otherwise is removal of every entry with that key. -/
def unregister_bridge (r : Registry) (call_sid : String) : Registry :=
  r.filter (fun p => !(p.1 == call_sid))

/-- Embedding of the `except` path of `_handle_ai_messages`: when
`self.ai_ws.recv()` (or message processing) raises — the upstream
session erroring or closing mid-stream — the handler's `except Exception`
clause runs `log.info(...)` and the coroutine returns.  It calls neither
`_cleanup` nor `unregister_bridge`, so the bridge state and the registry
pass through unchanged; the only effect is the log record.  (`_cleanup`
and the router's `unregister_bridge` call run only when the *Twilio*
receive loop in `connect_twilio` ends.) -/
def handle_ai_messages_error (b : BridgeState) (r : Registry) :
    BridgeState × Registry × List Output :=
  (b, r, [Output.logged "AI WebSocket closed"])

/-- Processing a sequence of Twilio frames the way `connect_twilio`'s
receive loop does: each frame is handled in turn (no exception escapes
`_handle_twilio_message`, so the loop always proceeds to the next frame). -/
def process_frames (b : BridgeState) : List TwilioFrame → BridgeState × List Output
  | [] => (b, [])
  | f :: rest =>
      let step := _handle_twilio_message b f
      let next := process_frames step.1 rest
      (next.1, step.2 ++ next.2)

/-! ## Helper lemmas -/

/-- `np.frombuffer` yields one int16 sample per byte pair. -/
theorem bytesToSamples_length : ∀ l : List Nat, (bytesToSamples l).length = l.length / 2
  | [] => rfl
  | [_] => by simp [bytesToSamples]
  | _ :: _ :: rest => by
      simp [bytesToSamples, bytesToSamples_length rest]
      omega

/-- Decoding yields two PCM bytes per µ-law input byte. -/
theorem mulaw_to_pcm16_length (l : List Nat) :
    (_mulaw_to_pcm16 l).length = 2 * l.length := by
  induction l with
  | nil => rfl
  | cons x rest ih =>
      simp [_mulaw_to_pcm16, mulawDecodeBytes] at ih ⊢
      omega

/-- A `flatMap` whose function always yields two elements doubles the length. -/
theorem flatMap_pair_length {α β : Type} (l : List α) (g : α → List β)
    (h : ∀ a, (g a).length = 2) : (l.flatMap g).length = 2 * l.length := by
  induction l with
  | nil => rfl
  | cons x rest ih =>
      simp [List.flatMap_cons, ih, h x]
      omega

/-- Length of `_resample_audio`'s output on the numpy path: with distinct
rates, an even-length and nonempty input yields exactly
`2 * (len / 2 * to_rate / from_rate)` bytes. -/
theorem resample_audio_length (a : List Nat) (f t : Nat) (hft : f ≠ t)
    (he : a.length % 2 = 0) (hne : a ≠ []) :
    (_resample_audio a f t).map List.length
      = some (2 * (a.length / 2 * t / f)) := by
  have hlen : (bytesToSamples a).length = a.length / 2 := bytesToSamples_length a
  have ha : a.length ≠ 0 := fun h0 => hne (List.length_eq_zero.mp h0)
  have hpos : a.length / 2 ≠ 0 := by omega
  have h2 : ∀ s : Int, (sampleToBytes s).length = 2 := by intro s; simp [sampleToBytes]
  simp only [_resample_audio, if_neg hft, hlen]
  rw [if_neg (by omega : ¬(a.length % 2 ≠ 0)), if_neg hpos]
  simp only [Option.map_some']
  rw [flatMap_pair_length _ _ h2, List.length_map, List.length_range]

/-- Looking up a key right after `dict` assignment returns the assigned value. -/
theorem get_register_self (r : Registry) (sid : String) (b : BridgeState) :
    get_bridge (register_bridge r sid b) sid = some b := by
  induction r with
  | nil => simp [get_bridge, register_bridge]
  | cons p rest ih =>
      by_cases h : p.1 = sid
      · simp [get_bridge, register_bridge, List.any_cons, h]
      · simp only [register_bridge, List.any_cons] at ih ⊢
        by_cases h2 : rest.any (fun p => p.1 == sid)
        · simp_all [get_bridge, h, h2]
        · simp_all [get_bridge, h, h2]

/-- Looking up a key right after `del` returns nothing. -/
theorem get_unregister_self (r : Registry) (sid : String) :
    get_bridge (unregister_bridge r sid) sid = none := by
  induction r with
  | nil => rfl
  | cons p rest ih =>
      simp only [unregister_bridge] at ih ⊢
      by_cases h : p.1 = sid
      · simp only [List.filter_cons, h, beq_self_eq_true, Bool.not_true,
          Bool.false_eq_true, if_false]
        exact ih
      · simp only [get_bridge, List.find?_cons] at ih ⊢
        have hb : (p.1 == sid) = false := by simp [h]
        simp [hb] at ih ⊢


/-- C7: for every PCM16 byte sequence and every rate, resampling with
equal source and target rates returns the input unchanged. -/
theorem resample_equal_rates_identity (audio_bytes : List Nat) (r : Nat) :
    _resample_audio audio_bytes r r = some audio_bytes := by
  simp [_resample_audio]

/-- C5: after `register_bridge(id, b)` a `get_bridge(id)` returns `b`,
and after `unregister_bridge(id)` a `get_bridge(id)` returns nothing. -/
theorem register_lookup_unregister (r : Registry) (call_sid : String)
    (bridge : BridgeState) :
    get_bridge (register_bridge r call_sid bridge) call_sid = some bridge ∧
    get_bridge (unregister_bridge (register_bridge r call_sid bridge) call_sid)
        call_sid = none ∧
    get_bridge (unregister_bridge r call_sid) call_sid = none :=
  ⟨get_register_self r call_sid bridge, get_unregister_self _ call_sid,
    get_unregister_self r call_sid⟩

/-- C9: `_cleanup` is idempotent — a second invocation on an already
cleaned-up bridge leaves the state exactly as after the first — and the
first invocation makes the bridge disconnected. -/
theorem cleanup_idempotent (b : BridgeState) :
    _cleanup (_cleanup b) = _cleanup b ∧ (_cleanup b).is_connected = false := by
  constructor
  · simp [_cleanup, Option.map_map]
  · rfl

/-- C10: registering a second bridge under an already-registered call SID
silently replaces the entry: the lookup returns the new bridge, and
(starting from an empty registry) the resulting registry holds exactly the
new bridge, so the old one is unreachable through it and was not touched. -/
theorem double_register_replaces (r : Registry) (call_sid : String)
    (b1 b2 : BridgeState) :
    get_bridge (register_bridge (register_bridge r call_sid b1) call_sid b2)
        call_sid = some b2 ∧
    register_bridge (register_bridge ([] : Registry) call_sid b1) call_sid b2
      = [(call_sid, b2)] := by
  refine ⟨get_register_self _ call_sid b2, ?_⟩
  simp [register_bridge]

/-- C8: a malformed frame is dropped and logged — the handler leaves the
bridge state unchanged and only emits a log record — and the receive loop
processes the subsequent frames exactly as it would without the bad frame. -/
theorem malformed_frame_dropped_and_logged (b : BridgeState)
    (rest : List TwilioFrame) :
    (_handle_twilio_message b TwilioFrame.malformed).1 = b ∧
    process_frames b (TwilioFrame.malformed :: rest)
      = ((process_frames b rest).1,
         Output.logged "Error handling Twilio message" :: (process_frames b rest).2) := by
  constructor
  · rfl
  · simp [process_frames, _handle_twilio_message]


/-- C1 (failing input): the µ-law round trip does not recover byte 0x00 —
`_pcm16_to_mulaw(_mulaw_to_pcm16([0x00]))` returns `[0xFF]`, the code for
a zero sample, 255 quantization steps away, because the decoder's `* 256`
scaling wraps the 16-bit sample to 0. -/
theorem roundtrip_fails_at_byte_zero :
    _pcm16_to_mulaw (_mulaw_to_pcm16 [0x00]) = [0xFF] ∧
    mulawDecodedValue 0x00 = 0 := by
  constructor <;> rfl

/-- C2 (failing input): on byte 0x00 the decoder produces the linear
sample 0 while the standard µ-law expansion gives −32124; the error is
over 31 quantization steps of the top segment (step 2^(7+3) = 1024). -/
theorem decode_diverges_from_standard_expansion :
    mulawDecodedValue 0x00 = 0 ∧ specMulawExpand 0x00 = -32124 ∧
    (mulawDecodedValue 0x00 - specMulawExpand 0x00).natAbs > 1024 := by
  refine ⟨rfl, rfl, ?_⟩
  decide

/-- A bridge in the Streaming state of the spec: connected on both sides,
as `connect_twilio` leaves it once `_connect_ai` succeeded. -/
def streamingBridge : BridgeState :=
  { call_sid := "c1", ai_provider := "openai", is_connected := true,
    twilio_ws := true, ai_ws := some true }

/-- C3 (failing input): when the upstream AI session errors mid-stream,
`_handle_ai_messages` only logs — the bridge stays connected
(`is_connected` remains `true`) and the registry still returns it, so the
bridge does not reach the Closed state and the registry entry survives
until the telephony side itself disconnects. -/
theorem upstream_error_leaves_bridge_open_and_registered :
    (handle_ai_messages_error streamingBridge
        (register_bridge [] "c1" streamingBridge)).1.is_connected = true ∧
    get_bridge (handle_ai_messages_error streamingBridge
        (register_bridge [] "c1" streamingBridge)).2.1 "c1" = some streamingBridge ∧
    (handle_ai_messages_error streamingBridge
        (register_bridge [] "c1" streamingBridge)).2.2
      = [Output.logged "AI WebSocket closed"] := by
  refine ⟨rfl, ?_, rfl⟩
  rfl

/-- C6 (counterexample): on the empty PCM16 input the resampler raises
(`np.interp` with an empty sample-point array), returning no byte string
at all, so the length property fails there. -/
theorem resample_empty_input_raises :
    _resample_audio [] 24000 8000 = none ∧
    _resample_audio [] 8000 16000 = none := by
  constructor <;> rfl

/-- C6 (amended): for every nonempty PCM16 input, the output byte length
matches `len · to_rate / from_rate` within one sample (two bytes), for
the rate pairs 8000→16000 (exactly double) and 24000→8000. -/
theorem resample_length_within_rounding (pcm : List Nat)
    (he : pcm.length % 2 = 0) (hne : pcm ≠ []) :
    (_resample_audio pcm 8000 16000).map List.length
      = some (pcm.length * 16000 / 8000) ∧
    (_resample_audio pcm 24000 8000).map List.length
      = some (2 * (pcm.length / 6)) ∧
    2 * (pcm.length / 6) ≤ pcm.length * 8000 / 24000 + 2 ∧
    pcm.length * 8000 / 24000 ≤ 2 * (pcm.length / 6) + 2 := by
  have h1 := resample_audio_length pcm 8000 16000 (by omega) he hne
  have h2 := resample_audio_length pcm 24000 8000 (by omega) he hne
  refine ⟨?_, ?_, by omega, by omega⟩
  · rw [h1]
    congr 1
    omega
  · rw [h2]
    congr 1
    omega

/-- C6 (witness): the amended length property evaluated on a concrete
six-byte (three-sample) PCM16 input. -/
theorem resample_length_within_rounding_witness :
    (_resample_audio [0, 0, 0, 0, 0, 0] 8000 16000).map List.length
      = some ([0, 0, 0, 0, 0, 0].length * 16000 / 8000) ∧
    (_resample_audio [0, 0, 0, 0, 0, 0] 24000 8000).map List.length
      = some (2 * ([0, 0, 0, 0, 0, 0].length / 6)) ∧
    2 * ([0, 0, 0, 0, 0, 0].length / 6) ≤ [0, 0, 0, 0, 0, 0].length * 8000 / 24000 + 2 ∧
    [0, 0, 0, 0, 0, 0].length * 8000 / 24000 ≤ 2 * ([0, 0, 0, 0, 0, 0].length / 6) + 2 :=
  resample_length_within_rounding [0, 0, 0, 0, 0, 0] (by decide) (by decide)


/-- Shape of one observable output: which peer it goes to and how many
bytes it carries. -/
def outputShape : Output → String × Nat
  | .toAI a => ("ai", a.length)
  | .toTwilio a => ("twilio", a.length)
  | .logged _ => ("log", 0)

/-- C4 (amended): with provider `'openai'`, one inbound media event with a
160-byte companded payload triggers exactly one `send_audio` carrying a
640-byte PCM16 buffer (320 samples at 16 kHz — 20 ms), leaves the bridge
state unchanged, and no telephony-bound frame is emitted by it nor by any
upstream event other than `response.audio.delta`. -/
theorem media_frame_triggers_one_send (b : BridgeState) (payload : List Nat)
    (s : String) (hp : b.ai_provider = "openai") (hl : payload.length = 160) :
    (_handle_twilio_message b (TwilioFrame.media (some payload))).1 = b ∧
    ((_handle_twilio_message b (TwilioFrame.media (some payload))).2.map outputShape)
      = [("ai", 640)] ∧
    _process_openai_message b (AIEvent.textDelta s) = [] ∧
    _process_openai_message b AIEvent.other = [] := by
  have hpcm : (_mulaw_to_pcm16 payload).length = 320 := by
    rw [mulaw_to_pcm16_length, hl]
  have hne : _mulaw_to_pcm16 payload ≠ [] := by
    intro h0
    rw [h0] at hpcm
    simp at hpcm
  have hres := resample_audio_length (_mulaw_to_pcm16 payload) 8000 16000
    (by omega) (by omega) hne
  rw [hpcm] at hres
  obtain ⟨r, hr, hrl⟩ := Option.map_eq_some'.mp hres
  refine ⟨?_, ?_, rfl, rfl⟩
  · simp [_handle_twilio_message, hp, hr]
  · simp [_handle_twilio_message, hp, hr, _send_audio_to_ai, outputShape, hrl]

/-- C4 (witness): the amended property evaluated at a concrete streaming
bridge and the all-0xFF 160-byte frame. -/
theorem media_frame_triggers_one_send_witness :
    (_handle_twilio_message streamingBridge
        (TwilioFrame.media (some (List.replicate 160 0xFF)))).1 = streamingBridge ∧
    ((_handle_twilio_message streamingBridge
        (TwilioFrame.media (some (List.replicate 160 0xFF)))).2.map outputShape)
      = [("ai", 640)] ∧
    _process_openai_message streamingBridge (AIEvent.textDelta "hello") = [] ∧
    _process_openai_message streamingBridge AIEvent.other = [] :=
  media_frame_triggers_one_send streamingBridge (List.replicate 160 0xFF)
    "hello" rfl (by decide)

/-- C4 (counterexample): on a concrete 160-byte inbound frame the single
buffer handed to `send_audio` holds 640 bytes, not the 320 bytes the claim
states — 160 companded samples become 320 PCM16 bytes at 8 kHz, and
resampling to 16 kHz doubles the sample count again. -/
theorem media_frame_sends_640_not_320 :
    (_handle_twilio_message streamingBridge
        (TwilioFrame.media (some (List.replicate 160 0xFF)))).2
      = [Output.toAI (List.replicate 640 0)] ∧ (640 : Nat) ≠ 320 := by
  constructor
  · rfl
  · decide

end TwilioMedia
